import Mathlib

/-!
Verification of the WASM-Injection-Framework fault-classification harness.

The Go sources are shallowly embedded:

* `FailureStage` is a Go `string`-based type (`types.go`), so it is modelled
  as `String`; the five named constants are `StageNone` … `StageExecute`.
* Go `error` values reaching the processor are modelled by `GoError`:
  a `*RuntimeError` (stage, message, cause — `part_005`), a `fmt.Errorf`
  wrapping with `%w`, or a plain error.  `errors.As(err, &runtimeErr)`
  unwraps `wrapped` chains but never the `cause` field, because
  `RuntimeError` has no `Unwrap` method.
* Every call into the untrusted runtime either returns (a pair of a
  possibly-nil handle / value slice and a possibly-nil error, exactly as
  the Go signatures allow) or panics; `CallOutcome` captures this.
  `processWasmFileWithRuntime`'s `defer`/`recover` block is embedded by
  making the function total: the panic outcomes are mapped to the result
  the recovery handler builds.  The returned `ProcessTrace` also counts
  how many times `Close` ran on a loaded module, so the resource-release
  claims are statable.
-/

/-- Go type `FailureStage` is `type FailureStage string` (types.go), so any
string is a possible stage tag. -/
abbrev FailureStage := String

/-- `StageNone FailureStage = "none"` (types.go). -/
def StageNone : FailureStage := "none"

/-- `StageLoad FailureStage = "load"` (types.go). -/
def StageLoad : FailureStage := "load"

/-- `StageValidate FailureStage = "validate"` (types.go). -/
def StageValidate : FailureStage := "validate"

/-- `StageInstantiate FailureStage = "instantiate"` (types.go). -/
def StageInstantiate : FailureStage := "instantiate"

/-- `StageExecute FailureStage = "execute"` (types.go). -/
def StageExecute : FailureStage := "execute"

/-- WASM values returned by `Execute` (`[]interface{}` holding `i32`/`i64`
values); modelled as integers. -/
abbrev Value := Int

/-- A Go `error` value as seen by the processor: either a `*RuntimeError`
(part_005 lines 12-24), an error produced by `fmt.Errorf("...: %w", err)`,
or any other (plain) error rendered only by its `Error()` string. -/
inductive GoError where
  | runtimeError (stage : FailureStage) (message : String) (cause : Option GoError)
  | wrapped (pre : String) (inner : GoError)
  | plain (message : String)
deriving Repr

/-- The `Error()` string of a `GoError`.  For `RuntimeError` this is
`"%s: %s: %v"` or `"%s: %s"` (part_005 lines 19-24); a wrapped error
prepends its prefix text to the wrapped error's string. -/
def goErrorString : GoError → String
  | .runtimeError s m (some c) => s ++ ": " ++ m ++ ": " ++ goErrorString c
  | .runtimeError s m none => s ++ ": " ++ m
  | .wrapped pre inner => pre ++ goErrorString inner
  | .plain m => m

/-- `errors.As(err, &runtimeErr)`: finds the first `*RuntimeError` in the
`%w`-wrapping chain.  `RuntimeError.Cause` is not traversed because
`RuntimeError` defines no `Unwrap` method. -/
def errorsAsRuntimeError : GoError → Option (FailureStage × String)
  | .runtimeError s m _ => some (s, m)
  | .wrapped _ inner => errorsAsRuntimeError inner
  | .plain _ => none

/-- The classification applied at both call sites of
`processWasmFileWithRuntime` (part_005 lines 106-114 and 123-130): a
tagged error wins with its own stage and message; an untagged error gets
the call site's default stage and a prefixed `Error()` string. -/
def classifyError (err : GoError) (defStage : FailureStage) (defMsg : String) :
    FailureStage × String :=
  match errorsAsRuntimeError err with
  | some (s, m) => (s, m)
  | none => (defStage, defMsg ++ goErrorString err)

/-- `filepath.Base` (Go standard library, unix separators): empty path gives
`"."`, trailing slashes are stripped, the last element is returned, and a
path of only slashes gives `"/"`. -/
def filepathBase (path : String) : String :=
  if path = "" then "."
  else
    let stripped := (path.toList.reverse.dropWhile (fun c => c = '/')).reverse
    let elemRev := stripped.reverse.takeWhile (fun c => c ≠ '/')
    if elemRev = [] then "/" else String.mk elemRev.reverse

/-- Scan of `filepath.Ext`: walk the path backwards accumulating the suffix
until a dot (return the dot plus suffix) or a separator or the start of the
string (return `""`). -/
def goExtAux : List Char → List Char → String
  | [], _ => ""
  | c :: rest, acc =>
    if c = '/' then ""
    else if c = '.' then String.mk ('.' :: acc)
    else goExtAux rest (c :: acc)

/-- `filepath.Ext` (Go standard library): the suffix beginning at the final
dot in the final path element; empty if there is no dot. -/
def goExt (path : String) : String := goExtAux path.toList.reverse []

/-- One pass of `filepath.Clean`'s element processing: `stack` is the
output buffer, most recent element first; empty and `"."` elements are
dropped; `".."` pops a non-`".."` element, is dropped at the root, and is
kept when there is nothing left to pop in a relative path. -/
def cleanStack (rooted : Bool) : List String → List String → List String
  | stack, [] => stack
  | stack, c :: rest =>
    if c = "" ∨ c = "." then cleanStack rooted stack rest
    else if c = ".." then
      match stack with
      | [] => if rooted then cleanStack rooted [] rest else cleanStack rooted [".."] rest
      | top :: more =>
        if top = ".." then cleanStack rooted (c :: top :: more) rest
        else cleanStack rooted more rest
    else cleanStack rooted (c :: stack) rest

/-- Split a character list into the `"/"`-separated path elements
(`cur` accumulates the current element reversed). -/
def splitSlashAux (cur : List Char) : List Char → List String
  | [] => [String.mk cur.reverse]
  | c :: rest =>
    if c = '/' then String.mk cur.reverse :: splitSlashAux [] rest
    else splitSlashAux (c :: cur) rest

/-- Join path elements back with the `"/"` separator. -/
def joinSlash : List String → String
  | [] => ""
  | [s] => s
  | s :: rest => s ++ "/" ++ joinSlash (rest)

/-- `filepath.Clean` (Go standard library, unix): shortest lexical
equivalent of the path — iterated separators, `.` and `..` elements
resolved, `"."` for an empty result. -/
def goClean (path : String) : String :=
  if path = "" then "."
  else
    let rooted := path.toList.head? = some '/'
    let stack := cleanStack rooted [] (splitSlashAux [] path.toList)
    let body := joinSlash stack.reverse
    if rooted then (if body = "" then "/" else "/" ++ body)
    else (if body = "" then "." else body)

/-- `filepath.Join(dir, name)` (Go standard library): `Clean` of the
elements joined by `"/"`, starting from the first non-empty element. -/
def goJoin (dir name : String) : String :=
  if dir ≠ "" then goClean (dir ++ "/" ++ name)
  else if name ≠ "" then goClean name
  else ""

/-- Outcome of one call into the untrusted runtime: a normal return or a
panic whose value is rendered by `%v` as `msg`. -/
inductive CallOutcome (α : Type) where
  | ret (a : α)
  | panics (msg : String)
deriving Repr, DecidableEq

/-- A loaded module's behaviour at the single `Execute` call site of the
processor (`module.Execute("process", int32(1))`, part_005 line 120): the
Go method returns `([]interface{}, error)`, both components possibly nil,
or panics. -/
structure WasmModule where
  executeProcess : CallOutcome (List Value × Option GoError)
deriving Repr

/-- A `WasmRuntime`'s behaviour at the `LoadModule` call site (part_005
line 103): per path, the Go method returns `(WasmModule, error)` — the
interface value may be nil independently of the error — or panics. -/
structure RuntimeModel where
  loadModule : String → CallOutcome (Option WasmModule × Option GoError)

/-- `ExecutionResult` (types.go lines 15-22).  Go zero values: `""` for the
strings and the nil slice (`[]`) for `returnValues`.  Under the declared
`json` tags, `error_message` is serialized iff non-empty and
`return_values` iff non-empty (`omitempty`). -/
structure ExecutionResult where
  filePath : String
  fileName : String
  success : Bool
  failureStage : FailureStage
  errorMessage : String
  returnValues : List Value
deriving Repr, DecidableEq

/-- Result of one run of `processWasmFileWithRuntime` together with the
number of times `Close` ran on the loaded module. -/
structure ProcessTrace where
  result : ExecutionResult
  closeCount : Nat
deriving Repr, DecidableEq

/-- The panic message `%v` renders when Go dereferences a nil interface. -/
def nilDerefPanicMsg : String :=
  "runtime error: invalid memory address or nil pointer dereference"

/-- The result built by the `recover` handler of part_005 lines 94-100: the
fields written before the handler runs (`filePath`, `fileName`) keep their
values, `returnValues` is still its zero value, and the handler writes
`success`, `failureStage` and `errorMessage`. -/
def panicResult (filePath r : String) : ExecutionResult :=
  { filePath := filePath
    fileName := filepathBase filePath
    success := false
    failureStage := StageExecute
    errorMessage := "panic recovered: " ++ r
    returnValues := [] }

/-- `processWasmFileWithRuntime` (part_005 lines 88-138).  The
`defer`/`recover` block is embedded by mapping each panic outcome to
`panicResult`; `defer module.Close()` (line 117) is registered after the
load-error check and runs on every later exit, panicking included, which
the `closeCount` component records.  When `LoadModule` returns a nil
handle and a nil error, the `Execute` call on the nil interface panics
(and so does the deferred `Close`), which the recovery handler converts
like any other panic. -/
def processWasmFileWithRuntime (filePath : String) (rt : RuntimeModel) : ProcessTrace :=
  let result0 : ExecutionResult :=
    { filePath := filePath
      fileName := filepathBase filePath
      success := false
      failureStage := StageNone
      errorMessage := ""
      returnValues := [] }
  match rt.loadModule filePath with
  | .panics r => { result := panicResult filePath r, closeCount := 0 }
  | .ret (_, some err) =>
    let sm := classifyError err StageLoad "load failed: "
    { result := { result0 with success := false, failureStage := sm.1, errorMessage := sm.2 }
      closeCount := 0 }
  | .ret (none, none) => { result := panicResult filePath nilDerefPanicMsg, closeCount := 0 }
  | .ret (some m, none) =>
    match m.executeProcess with
    | .panics r => { result := panicResult filePath r, closeCount := 1 }
    | .ret (_, some err) =>
      let sm := classifyError err StageExecute "execution failed: "
      { result := { result0 with success := false, failureStage := sm.1, errorMessage := sm.2 }
        closeCount := 1 }
    | .ret (values, none) =>
      { result := { result0 with success := true, returnValues := values }
        closeCount := 1 }

/-- Outcomes of the WasmEdge SDK calls made by `processWasmFile`
(main.go, `integration` build).  The SDK objects themselves (configure,
loader, `*AST`, store, executor, module instance) are opaque external
state; only each call's error/panic outcome is observable to the
classification logic, so only those outcomes are modelled.
`findFunction` tells whether `module.FindFunction("process")` returned a
non-nil instance. -/
structure EdgeEngine where
  loadFile : String → CallOutcome (Option GoError)
  validateCall : CallOutcome (Option GoError)
  instantiateCall : CallOutcome (Option GoError)
  findFunction : CallOutcome Bool
  invoke : CallOutcome (List Value × Option GoError)

/-- `processWasmFile` (main.go lines 17-102): the four discrete stages
against the real engine, with the same `defer`/`recover` containment;
each stage's error is given that stage and a fixed message prefix, a
missing `process` export is an `execute` failure, and the success path
copies the returned values in order (the `make` + index loop of lines
96-99 is an elementwise copy). -/
def processWasmFile (filePath : String) (eng : EdgeEngine) : ExecutionResult :=
  let result0 : ExecutionResult :=
    { filePath := filePath
      fileName := filepathBase filePath
      success := false
      failureStage := StageNone
      errorMessage := ""
      returnValues := [] }
  match eng.loadFile filePath with
  | .panics r => panicResult filePath r
  | .ret (some err) =>
    { result0 with success := false, failureStage := StageLoad,
                   errorMessage := "load failed: " ++ goErrorString err }
  | .ret none =>
    match eng.validateCall with
    | .panics r => panicResult filePath r
    | .ret (some err) =>
      { result0 with success := false, failureStage := StageValidate,
                     errorMessage := "validation failed: " ++ goErrorString err }
    | .ret none =>
      match eng.instantiateCall with
      | .panics r => panicResult filePath r
      | .ret (some err) =>
        { result0 with success := false, failureStage := StageInstantiate,
                       errorMessage := "instantiation failed: " ++ goErrorString err }
      | .ret none =>
        match eng.findFunction with
        | .panics r => panicResult filePath r
        | .ret false =>
          { result0 with success := false, failureStage := StageExecute,
                         errorMessage := "function \x27process\x27 not found in module exports" }
        | .ret true =>
          match eng.invoke with
          | .panics r => panicResult filePath r
          | .ret (_, some err) =>
            { result0 with success := false, failureStage := StageExecute,
                           errorMessage := "execution failed: " ++ goErrorString err }
          | .ret (values, none) =>
            { result0 with success := true, returnValues := values }

/-- One entry of the `os.ReadDir` listing: its name and whether it is a
sub-directory. -/
structure DirEntry where
  name : String
  isDir : Bool
deriving Repr, DecidableEq

/-- The loop of `collectWasmFiles` (main_stub.go lines 22-30): skip
directories, keep entries whose `filepath.Ext` is `".wasm"`, appending
`filepath.Join(dirPath, name)` in listing order. -/
def collectLoop (dirPath : String) : List DirEntry → List String
  | [] => []
  | entry :: rest =>
    if entry.isDir then collectLoop dirPath rest
    else if goExt entry.name = ".wasm" then
      goJoin dirPath entry.name :: collectLoop dirPath rest
    else collectLoop dirPath rest

/-- `collectWasmFiles` (main_stub.go lines 14-33).  The `os.ReadDir`
outcome is the explicit `listing` argument (the directory contents are
external state); a listing error is wrapped by
`fmt.Errorf("failed to read directory: %w", err)` and returned. -/
def collectWasmFiles (dirPath : String) (listing : Except GoError (List DirEntry)) :
    Except GoError (List String) :=
  match listing with
  | .error e => .error (.wrapped "failed to read directory: " e)
  | .ok entries => .ok (collectLoop dirPath entries)

/-- `FuzzingReport` (types.go lines 25-31).  The Go `map[FailureStage]int`
is modelled as an association list with at most one binding per key
(`mapIncr` preserves this); only key presence and values are observable. -/
structure FuzzingReport where
  totalFiles : Nat
  passed : Nat
  failed : Nat
  results : List ExecutionResult
  failureCounts : List (FailureStage × Nat)
deriving Repr, DecidableEq

/-- Go `report.FailureCounts[k]++`: increment the binding for `k`,
inserting a fresh binding (starting from the zero value) when absent. -/
def mapIncr : List (FailureStage × Nat) → FailureStage → List (FailureStage × Nat)
  | [], k => [(k, 1)]
  | (k0, v) :: rest, k =>
    if k0 = k then (k0, v + 1) :: rest else (k0, v) :: mapIncr rest k

/-- Map lookup on the association list (presence of a key in the Go map). -/
def countsLookup : List (FailureStage × Nat) → FailureStage → Option Nat
  | [], _ => none
  | (k0, v) :: rest, k => if k0 = k then some v else countsLookup rest k

/-- `sum(failureCounts.values())`. -/
def sumCounts : List (FailureStage × Nat) → Nat
  | [] => 0
  | (_, v) :: rest => v + sumCounts rest

/-- The report as initialized by `runFuzzerWithRuntime` (main_stub.go
lines 37-46): empty results and the four failure stages zero-initialized. -/
def initialReport : FuzzingReport :=
  { totalFiles := 0
    passed := 0
    failed := 0
    results := []
    failureCounts :=
      [(StageLoad, 0), (StageValidate, 0), (StageInstantiate, 0), (StageExecute, 0)] }

/-- The sequential processing loop of `runFuzzerWithRuntime` (main_stub.go
lines 57-67): per file append the result, then bump `passed`, or `failed`
and the failure count for the result's stage. -/
def fuzzLoop (rt : RuntimeModel) : List String → FuzzingReport → FuzzingReport
  | [], report => report
  | filePath :: rest, report =>
    let result := (processWasmFileWithRuntime filePath rt).result
    let report1 := { report with results := report.results ++ [result] }
    let report2 :=
      if result.success then { report1 with passed := report1.passed + 1 }
      else
        { report1 with failed := report1.failed + 1,
                       failureCounts := mapIncr report1.failureCounts result.failureStage }
    fuzzLoop rt rest report2

/-- `runFuzzerWithRuntime` (main_stub.go lines 36-70): on a discovery
error the initialized (empty) report is returned together with the error;
otherwise `totalFiles` is set and every file is processed in order. -/
def runFuzzerWithRuntime (dirPath : String) (listing : Except GoError (List DirEntry))
    (rt : RuntimeModel) : FuzzingReport × Option GoError :=
  match collectWasmFiles dirPath listing with
  | .error e => (initialReport, some e)
  | .ok files =>
    (fuzzLoop rt files { initialReport with totalFiles := files.length }, none)

/-! Branch equations for `processWasmFileWithRuntime`, one per exit path. -/

lemma process_eq_of_load_panics (p : String) (rt : RuntimeModel) (r : String)
    (h : rt.loadModule p = .panics r) :
    processWasmFileWithRuntime p rt = ⟨panicResult p r, 0⟩ := by
  unfold processWasmFileWithRuntime
  rw [h]

lemma process_eq_of_load_err (p : String) (rt : RuntimeModel)
    (m? : Option WasmModule) (e : GoError)
    (h : rt.loadModule p = .ret (m?, some e)) :
    processWasmFileWithRuntime p rt =
      ⟨{ filePath := p
         fileName := filepathBase p
         success := false
         failureStage := (classifyError e StageLoad "load failed: ").1
         errorMessage := (classifyError e StageLoad "load failed: ").2
         returnValues := [] }, 0⟩ := by
  unfold processWasmFileWithRuntime
  rw [h]
  cases m? <;> rfl

lemma process_eq_of_nil_module (p : String) (rt : RuntimeModel)
    (h : rt.loadModule p = .ret (none, none)) :
    processWasmFileWithRuntime p rt = ⟨panicResult p nilDerefPanicMsg, 0⟩ := by
  unfold processWasmFileWithRuntime
  rw [h]

lemma process_eq_of_exec_panics (p : String) (rt : RuntimeModel) (md : WasmModule)
    (r : String) (h : rt.loadModule p = .ret (some md, none))
    (hx : md.executeProcess = .panics r) :
    processWasmFileWithRuntime p rt = ⟨panicResult p r, 1⟩ := by
  simp only [processWasmFileWithRuntime, h, hx]

lemma process_eq_of_exec_err (p : String) (rt : RuntimeModel) (md : WasmModule)
    (vs : List Value) (e : GoError) (h : rt.loadModule p = .ret (some md, none))
    (hx : md.executeProcess = .ret (vs, some e)) :
    processWasmFileWithRuntime p rt =
      ⟨{ filePath := p
         fileName := filepathBase p
         success := false
         failureStage := (classifyError e StageExecute "execution failed: ").1
         errorMessage := (classifyError e StageExecute "execution failed: ").2
         returnValues := [] }, 1⟩ := by
  simp only [processWasmFileWithRuntime, h, hx]

lemma process_eq_of_exec_ok (p : String) (rt : RuntimeModel) (md : WasmModule)
    (vs : List Value) (h : rt.loadModule p = .ret (some md, none))
    (hx : md.executeProcess = .ret (vs, none)) :
    processWasmFileWithRuntime p rt =
      ⟨{ filePath := p
         fileName := filepathBase p
         success := true
         failureStage := StageNone
         errorMessage := ""
         returnValues := vs }, 1⟩ := by
  simp only [processWasmFileWithRuntime, h, hx]

/-! Frame facts shared by several claims: `filePath` and `fileName` are set
on entry and never overwritten on any exit path. -/

lemma process_result_frame (p : String) (rt : RuntimeModel) :
    (processWasmFileWithRuntime p rt).result.filePath = p ∧
    (processWasmFileWithRuntime p rt).result.fileName = filepathBase p := by
  unfold processWasmFileWithRuntime
  repeat' split
  all_goals simp [panicResult]

lemma processWasmFile_frame (p : String) (eng : EdgeEngine) :
    (processWasmFile p eng).filePath = p ∧
    (processWasmFile p eng).fileName = filepathBase p := by
  unfold processWasmFile
  repeat' split
  all_goals simp [panicResult]

/-! Concrete test doubles, mirroring the mocks of the fault-injection test
suite (part_004); used by the witness theorems. -/

/-- Mock module returning `[42]`, as `MockWasmModule`'s default. -/
def mOk : WasmModule := { executeProcess := .ret ([42], none) }

/-- Mock runtime whose load succeeds with `mOk`. -/
def rtOk : RuntimeModel := { loadModule := fun _ => .ret (some mOk, none) }

/-- Mock runtime that panics inside `LoadModule`. -/
def rtPanicLoad : RuntimeModel := { loadModule := fun _ => .panics "loader panic" }

/-- Mock module that panics inside `Execute`. -/
def mPanicExec : WasmModule := { executeProcess := .panics "corrupted state" }

/-- Mock runtime whose load succeeds with the panicking module. -/
def rtPanicExec : RuntimeModel := { loadModule := fun _ => .ret (some mPanicExec, none) }

/-- Mock runtime failing at load with a stage-tagged validation error. -/
def rtValTag : RuntimeModel :=
  { loadModule := fun _ => .ret (none, some (.runtimeError StageValidate "unknown opcode" none)) }

/-- Mock runtime failing at load with a `RuntimeError` whose tag is the
success marker `"none"`. -/
def rtNoneTag : RuntimeModel :=
  { loadModule := fun _ => .ret (none, some (.runtimeError StageNone "injected failure" none)) }

/-- Mock runtime returning a non-nil handle together with a non-nil error. -/
def rtHandleAndErr : RuntimeModel :=
  { loadModule := fun _ => .ret (some mOk, some (.plain "weird state")) }

/-- Mock module whose execution succeeds with zero return values. -/
def mOkEmpty : WasmModule := { executeProcess := .ret ([], none) }

/-- Mock runtime whose load succeeds with the zero-return-value module. -/
def rtOkEmpty : RuntimeModel := { loadModule := fun _ => .ret (some mOkEmpty, none) }

/-- Mock runtime failing at load with a tagged error carrying an empty
message. -/
def rtEmptyTaggedMsg : RuntimeModel :=
  { loadModule := fun _ => .ret (none, some (.runtimeError StageLoad "" none)) }

/-- Engine double whose five calls all succeed, returning `[2]`. -/
def engAllOk : EdgeEngine :=
  { loadFile := fun _ => .ret none
    validateCall := .ret none
    instantiateCall := .ret none
    findFunction := .ret true
    invoke := .ret ([2], none) }

/-- Engine double that panics inside the invocation call. -/
def engInvokePanic : EdgeEngine :=
  { loadFile := fun _ => .ret none
    validateCall := .ret none
    instantiateCall := .ret none
    findFunction := .ret true
    invoke := .panics "invoke panic" }

/-- Claim C1: `processWasmFileWithRuntime` and `processWasmFile` never
panic to their caller and always return a populated `ExecutionResult`
(both functions are total in this embedding, with `filePath` and
`fileName` always filled in); a panic raised in the load call or the
execute call is caught exactly once by the single recovery handler —
the panic outcomes are mapped to an ordinary result, never re-raised —
and yields `success=false`, `failureStage=execute`, and the message
`"panic recovered: "` followed by the panic value. -/
theorem process_never_escapes_panic (p : String) (rt : RuntimeModel) (eng : EdgeEngine) :
    ((processWasmFileWithRuntime p rt).result.filePath = p ∧
     (processWasmFileWithRuntime p rt).result.fileName = filepathBase p) ∧
    (∀ r, rt.loadModule p = .panics r →
      (processWasmFileWithRuntime p rt).result = panicResult p r) ∧
    (∀ md r, rt.loadModule p = .ret (some md, none) → md.executeProcess = .panics r →
      (processWasmFileWithRuntime p rt).result = panicResult p r) ∧
    ((processWasmFile p eng).filePath = p ∧
     (processWasmFile p eng).fileName = filepathBase p) ∧
    (∀ r, eng.loadFile p = .panics r → processWasmFile p eng = panicResult p r) ∧
    (∀ r, eng.loadFile p = .ret none → eng.validateCall = .ret none →
      eng.instantiateCall = .ret none → eng.findFunction = .ret true →
      eng.invoke = .panics r → processWasmFile p eng = panicResult p r) := by
  refine ⟨process_result_frame p rt, ?_, ?_, processWasmFile_frame p eng, ?_, ?_⟩
  · intro r h
    rw [process_eq_of_load_panics p rt r h]
  · intro md r h hx
    rw [process_eq_of_exec_panics p rt md r h hx]
  · intro r h
    simp only [processWasmFile, h]
  · intro r h1 h2 h3 h4 h5
    simp only [processWasmFile, h1, h2, h3, h4, h5]

theorem process_never_escapes_panic_witness :
    (processWasmFileWithRuntime "/test/panic.wasm" rtPanicLoad).result =
      panicResult "/test/panic.wasm" "loader panic" ∧
    (processWasmFileWithRuntime "/test/panic.wasm" rtPanicExec).result =
      panicResult "/test/panic.wasm" "corrupted state" ∧
    processWasmFile "/test/panic.wasm" engInvokePanic =
      panicResult "/test/panic.wasm" "invoke panic" :=
  ⟨(process_never_escapes_panic "/test/panic.wasm" rtPanicLoad engInvokePanic).2.1
      "loader panic" rfl,
   (process_never_escapes_panic "/test/panic.wasm" rtPanicExec engInvokePanic).2.2.1
      mPanicExec "corrupted state" rfl rfl,
   (process_never_escapes_panic "/test/panic.wasm" rtPanicExec engInvokePanic).2.2.2.2.2
      "invoke panic" rfl rfl rfl rfl rfl⟩

/-- Claim C2: for every error returned by the runtime boundary, an explicit
`RuntimeError` stage tag wins (the result carries the tagged stage and the
tagged message verbatim); an untagged error is defaulted to the call site's
nominal stage — `load` with message prefix `"load failed: "` for the
`LoadModule` call, `execute` with prefix `"execution failed: "` for the
`Execute` call; and a panic is always classified `execute`, whichever call
raised it. -/
theorem stage_classification_policy (p : String) (rt : RuntimeModel) :
    (∀ m? e s m, rt.loadModule p = .ret (m?, some e) →
      errorsAsRuntimeError e = some (s, m) →
      (processWasmFileWithRuntime p rt).result.failureStage = s ∧
      (processWasmFileWithRuntime p rt).result.errorMessage = m) ∧
    (∀ m? e, rt.loadModule p = .ret (m?, some e) →
      errorsAsRuntimeError e = none →
      (processWasmFileWithRuntime p rt).result.failureStage = StageLoad ∧
      (processWasmFileWithRuntime p rt).result.errorMessage =
        "load failed: " ++ goErrorString e) ∧
    (∀ md vs e s m, rt.loadModule p = .ret (some md, none) →
      md.executeProcess = .ret (vs, some e) →
      errorsAsRuntimeError e = some (s, m) →
      (processWasmFileWithRuntime p rt).result.failureStage = s ∧
      (processWasmFileWithRuntime p rt).result.errorMessage = m) ∧
    (∀ md vs e, rt.loadModule p = .ret (some md, none) →
      md.executeProcess = .ret (vs, some e) →
      errorsAsRuntimeError e = none →
      (processWasmFileWithRuntime p rt).result.failureStage = StageExecute ∧
      (processWasmFileWithRuntime p rt).result.errorMessage =
        "execution failed: " ++ goErrorString e) ∧
    (∀ r, rt.loadModule p = .panics r →
      (processWasmFileWithRuntime p rt).result.failureStage = StageExecute) ∧
    (∀ md r, rt.loadModule p = .ret (some md, none) → md.executeProcess = .panics r →
      (processWasmFileWithRuntime p rt).result.failureStage = StageExecute) := by
  refine ⟨?_, ?_, ?_, ?_, ?_, ?_⟩
  · intro m? e s m h hAs
    rw [process_eq_of_load_err p rt m? e h]
    simp [classifyError, hAs]
  · intro m? e h hAs
    rw [process_eq_of_load_err p rt m? e h]
    simp [classifyError, hAs]
  · intro md vs e s m h hx hAs
    rw [process_eq_of_exec_err p rt md vs e h hx]
    simp [classifyError, hAs]
  · intro md vs e h hx hAs
    rw [process_eq_of_exec_err p rt md vs e h hx]
    simp [classifyError, hAs]
  · intro r h
    rw [process_eq_of_load_panics p rt r h]
    rfl
  · intro md r h hx
    rw [process_eq_of_exec_panics p rt md r h hx]
    rfl

theorem stage_classification_policy_witness :
    (processWasmFileWithRuntime "/test/a.wasm" rtValTag).result.failureStage =
      StageValidate ∧
    (processWasmFileWithRuntime "/test/a.wasm" rtValTag).result.errorMessage =
      "unknown opcode" :=
  (stage_classification_policy "/test/a.wasm" rtValTag).1 none
    (.runtimeError StageValidate "unknown opcode" none) StageValidate "unknown opcode"
    rfl rfl

/-- Claim C5: once `LoadModule` has returned a handle without an error,
`Close` runs exactly once on every exit path — successful execution,
execution error, and contained panic during execution; when `LoadModule`
fails (error or panic) no release occurs. -/
theorem close_called_exactly_once (p : String) (rt : RuntimeModel) :
    (∀ md, rt.loadModule p = .ret (some md, none) →
      (processWasmFileWithRuntime p rt).closeCount = 1) ∧
    (∀ m? e, rt.loadModule p = .ret (m?, some e) →
      (processWasmFileWithRuntime p rt).closeCount = 0) ∧
    (∀ r, rt.loadModule p = .panics r →
      (processWasmFileWithRuntime p rt).closeCount = 0) := by
  refine ⟨?_, ?_, ?_⟩
  · intro md h
    cases hx : md.executeProcess with
    | panics r => rw [process_eq_of_exec_panics p rt md r h hx]
    | ret a =>
      obtain ⟨vs, e?⟩ := a
      cases e? with
      | some e => rw [process_eq_of_exec_err p rt md vs e h hx]
      | none => rw [process_eq_of_exec_ok p rt md vs h hx]
  · intro m? e h
    rw [process_eq_of_load_err p rt m? e h]
  · intro r h
    rw [process_eq_of_load_panics p rt r h]

theorem close_called_exactly_once_witness :
    (processWasmFileWithRuntime "/test/cleanup.wasm" rtPanicExec).closeCount = 1 :=
  (close_called_exactly_once "/test/cleanup.wasm" rtPanicExec).1 mPanicExec rfl

/-- Claim C9: when `LoadModule` returns a non-nil handle together with a
non-nil error, the processor takes the failure branch (classifying the
error exactly as for a handle-less failure) and `Close` is never invoked:
release is conditioned solely on the error being nil. -/
theorem load_error_with_handle_no_release (p : String) (rt : RuntimeModel)
    (md : WasmModule) (e : GoError)
    (h : rt.loadModule p = .ret (some md, some e)) :
    (processWasmFileWithRuntime p rt).result.success = false ∧
    (processWasmFileWithRuntime p rt).result.failureStage =
      (classifyError e StageLoad "load failed: ").1 ∧
    (processWasmFileWithRuntime p rt).result.errorMessage =
      (classifyError e StageLoad "load failed: ").2 ∧
    (processWasmFileWithRuntime p rt).closeCount = 0 := by
  rw [process_eq_of_load_err p rt (some md) e h]
  exact ⟨rfl, rfl, rfl, rfl⟩

theorem load_error_with_handle_no_release_witness :
    (processWasmFileWithRuntime "/test/h.wasm" rtHandleAndErr).result.success = false ∧
    (processWasmFileWithRuntime "/test/h.wasm" rtHandleAndErr).result.failureStage =
      (classifyError (.plain "weird state") StageLoad "load failed: ").1 ∧
    (processWasmFileWithRuntime "/test/h.wasm" rtHandleAndErr).result.errorMessage =
      (classifyError (.plain "weird state") StageLoad "load failed: ").2 ∧
    (processWasmFileWithRuntime "/test/h.wasm" rtHandleAndErr).closeCount = 0 :=
  load_error_with_handle_no_release "/test/h.wasm" rtHandleAndErr mOk
    (.plain "weird state") rfl

/-- Claim C10: for every outcome, including contained panics, the result's
`filePath` equals the input path and `fileName` equals its base name (for
both processor variants); the recovery handler overwrites only `success`,
`failureStage` and `errorMessage`, so in the panic cases `filePath`,
`fileName` and the untouched `returnValues` keep the values set at entry. -/
theorem result_path_fields_frame (p : String) (rt : RuntimeModel) (eng : EdgeEngine) :
    ((processWasmFileWithRuntime p rt).result.filePath = p ∧
     (processWasmFileWithRuntime p rt).result.fileName = filepathBase p) ∧
    ((processWasmFile p eng).filePath = p ∧
     (processWasmFile p eng).fileName = filepathBase p) ∧
    (∀ r, rt.loadModule p = .panics r →
      (processWasmFileWithRuntime p rt).result.filePath = p ∧
      (processWasmFileWithRuntime p rt).result.fileName = filepathBase p ∧
      (processWasmFileWithRuntime p rt).result.returnValues = []) ∧
    (∀ md r, rt.loadModule p = .ret (some md, none) → md.executeProcess = .panics r →
      (processWasmFileWithRuntime p rt).result.filePath = p ∧
      (processWasmFileWithRuntime p rt).result.fileName = filepathBase p ∧
      (processWasmFileWithRuntime p rt).result.returnValues = []) := by
  refine ⟨process_result_frame p rt, processWasmFile_frame p eng, ?_, ?_⟩
  · intro r h
    rw [process_eq_of_load_panics p rt r h]
    exact ⟨rfl, rfl, rfl⟩
  · intro md r h hx
    rw [process_eq_of_exec_panics p rt md r h hx]
    exact ⟨rfl, rfl, rfl⟩

theorem result_path_fields_frame_witness :
    (processWasmFileWithRuntime "/corpus/x.wasm" rtPanicLoad).result.filePath =
      "/corpus/x.wasm" ∧
    (processWasmFileWithRuntime "/corpus/x.wasm" rtPanicLoad).result.fileName =
      filepathBase "/corpus/x.wasm" ∧
    (processWasmFileWithRuntime "/corpus/x.wasm" rtPanicLoad).result.returnValues = [] :=
  (result_path_fields_frame "/corpus/x.wasm" rtPanicLoad engAllOk).2.2.1
    "loader panic" rfl

/-- Claim C3 counterexample: with a runtime-supplied `RuntimeError` whose
stage tag is the success marker `"none"`, the processor copies that tag
verbatim, producing a result with `success=false` and `failureStage=none`
— so the claimed equivalence fails for arbitrary stage tags. -/
theorem success_iff_stage_none_cex :
    ¬ ((processWasmFileWithRuntime "/test/a.wasm" rtNoneTag).result.success = true ↔
       (processWasmFileWithRuntime "/test/a.wasm" rtNoneTag).result.failureStage =
         StageNone) := by
  decide

/-- A `GoError` is benign for the success invariant when any explicit
stage tag it carries differs from the success marker `"none"`. -/
def taggedStageNotNone (e : GoError) : Prop :=
  ∀ s m, errorsAsRuntimeError e = some (s, m) → s ≠ StageNone

/-- Claim C3 (amended): `success = true` iff `failureStage = none`,
provided every runtime-supplied stage-tagged error carries a tag other
than `"none"` (the four genuine failure stages all qualify; the
counterexample shows the restriction is necessary).  For the integration
variant `processWasmFile`, whose stages are hard-coded constants, the
equivalence holds with no proviso. -/
theorem success_iff_stage_none (p : String) (rt : RuntimeModel) (eng : EdgeEngine)
    (hload : ∀ m? e, rt.loadModule p = .ret (m?, some e) → taggedStageNotNone e)
    (hexec : ∀ md vs e, rt.loadModule p = .ret (some md, none) →
      md.executeProcess = .ret (vs, some e) → taggedStageNotNone e) :
    ((processWasmFileWithRuntime p rt).result.success = true ↔
      (processWasmFileWithRuntime p rt).result.failureStage = StageNone) ∧
    ((processWasmFile p eng).success = true ↔
      (processWasmFile p eng).failureStage = StageNone) := by
  constructor
  · cases h : rt.loadModule p with
    | panics r =>
      rw [process_eq_of_load_panics p rt r h]
      simp [panicResult, StageExecute, StageNone]
    | ret a =>
      obtain ⟨m?, e?⟩ := a
      cases e? with
      | some e =>
        rw [process_eq_of_load_err p rt m? e h]
        cases hAs : errorsAsRuntimeError e with
        | some sm =>
          have hne := hload m? e h sm.1 sm.2 (by rw [hAs])
          simp [classifyError, hAs, hne]
        | none => simp [classifyError, hAs, StageLoad, StageNone]
      | none =>
        cases m? with
        | none =>
          rw [process_eq_of_nil_module p rt h]
          simp [panicResult, StageExecute, StageNone]
        | some md =>
          cases hx : md.executeProcess with
          | panics r =>
            rw [process_eq_of_exec_panics p rt md r h hx]
            simp [panicResult, StageExecute, StageNone]
          | ret b =>
            obtain ⟨vs, e?⟩ := b
            cases e? with
            | some e =>
              rw [process_eq_of_exec_err p rt md vs e h hx]
              cases hAs : errorsAsRuntimeError e with
              | some sm =>
                have hne := hexec md vs e h hx sm.1 sm.2 (by rw [hAs])
                simp [classifyError, hAs, hne]
              | none => simp [classifyError, hAs, StageExecute, StageNone]
            | none =>
              rw [process_eq_of_exec_ok p rt md vs h hx]
              simp
  · unfold processWasmFile
    repeat' split
    all_goals
      simp [panicResult, StageLoad, StageValidate, StageInstantiate, StageExecute, StageNone]

theorem success_iff_stage_none_witness :
    ((processWasmFileWithRuntime "/test/valid.wasm" rtOk).result.success = true ↔
      (processWasmFileWithRuntime "/test/valid.wasm" rtOk).result.failureStage =
        StageNone) ∧
    ((processWasmFile "/test/valid.wasm" engAllOk).success = true ↔
      (processWasmFile "/test/valid.wasm" engAllOk).failureStage = StageNone) := by
  apply success_iff_stage_none
  · intro m? e h
    simp [rtOk] at h
  · intro md vs e h hx
    have hmd : md = mOk := by
      simp [rtOk] at h
      exact h.symm
    rw [hmd] at hx
    simp [mOk] at hx

lemma append_ne_empty_of_left (s t : String) (h : s ≠ "") : s ++ t ≠ "" := by
  intro hc
  apply h
  have hlen : s.length + t.length = 0 := by
    have := congrArg String.length hc
    simpa [String.length_append] using this
  have hs : s.length = 0 := by omega
  cases s with
  | mk data =>
    cases data with
    | nil => rfl
    | cons c cs => simp [String.length] at hs

/-- A `GoError` is benign for the field-presence contract when any
explicit stage tag it carries comes with a non-empty message. -/
def taggedMessageNonempty (e : GoError) : Prop :=
  ∀ s m, errorsAsRuntimeError e = some (s, m) → m ≠ ""

/-- Claim C8 counterexample: under the `omitempty` serialization contract
a field is present iff non-empty; an execution that succeeds with zero
return values yields `success=true` with `returnValues` empty (omitted),
and a runtime-supplied tagged error with an empty message yields
`success=false` with `errorMessage` empty (omitted) — both directions of
the claimed equivalences fail. -/
theorem result_field_presence_cex :
    ((processWasmFileWithRuntime "/test/ok.wasm" rtOkEmpty).result.success = true ∧
     (processWasmFileWithRuntime "/test/ok.wasm" rtOkEmpty).result.returnValues = []) ∧
    ((processWasmFileWithRuntime "/test/bad.wasm" rtEmptyTaggedMsg).result.success =
       false ∧
     (processWasmFileWithRuntime "/test/bad.wasm" rtEmptyTaggedMsg).result.errorMessage =
       "") :=
  ⟨⟨rfl, rfl⟩, ⟨rfl, rfl⟩⟩

/-- Claim C8 (amended): `errorMessage` is non-empty iff `success` is
false, provided every runtime-supplied stage-tagged error carries a
non-empty message; `returnValues` is non-empty only if `success` is true,
and on success it equals the value sequence returned by the execute call
verbatim and in order (so it is present — non-empty under `omitempty` —
iff that sequence is non-empty). -/
theorem result_field_presence (p : String) (rt : RuntimeModel)
    (hload : ∀ m? e, rt.loadModule p = .ret (m?, some e) → taggedMessageNonempty e)
    (hexec : ∀ md vs e, rt.loadModule p = .ret (some md, none) →
      md.executeProcess = .ret (vs, some e) → taggedMessageNonempty e) :
    ((processWasmFileWithRuntime p rt).result.success = true →
      (processWasmFileWithRuntime p rt).result.errorMessage = "" ∧
      ∃ md vs, rt.loadModule p = .ret (some md, none) ∧
        md.executeProcess = .ret (vs, none) ∧
        (processWasmFileWithRuntime p rt).result.returnValues = vs) ∧
    ((processWasmFileWithRuntime p rt).result.success = false →
      (processWasmFileWithRuntime p rt).result.returnValues = [] ∧
      (processWasmFileWithRuntime p rt).result.errorMessage ≠ "") := by
  cases h : rt.loadModule p with
  | panics r =>
    rw [process_eq_of_load_panics p rt r h]
    refine ⟨(fun hs => nomatch hs), fun _ => ⟨rfl, ?_⟩⟩
    exact append_ne_empty_of_left "panic recovered: " r (by decide)
  | ret a =>
    obtain ⟨m?, e?⟩ := a
    cases e? with
    | some e =>
      rw [process_eq_of_load_err p rt m? e h]
      refine ⟨(fun hs => nomatch hs), fun _ => ⟨rfl, ?_⟩⟩
      cases hAs : errorsAsRuntimeError e with
      | some sm =>
        have hne := hload m? e h sm.1 sm.2 (by rw [hAs])
        simpa [classifyError, hAs] using hne
      | none =>
        simp only [classifyError, hAs]
        exact append_ne_empty_of_left "load failed: " (goErrorString e) (by decide)
    | none =>
      cases m? with
      | none =>
        rw [process_eq_of_nil_module p rt h]
        refine ⟨(fun hs => nomatch hs), fun _ => ⟨rfl, ?_⟩⟩
        exact append_ne_empty_of_left "panic recovered: " nilDerefPanicMsg (by decide)
      | some md =>
        cases hx : md.executeProcess with
        | panics r =>
          rw [process_eq_of_exec_panics p rt md r h hx]
          refine ⟨(fun hs => nomatch hs), fun _ => ⟨rfl, ?_⟩⟩
          exact append_ne_empty_of_left "panic recovered: " r (by decide)
        | ret b =>
          obtain ⟨vs, e?⟩ := b
          cases e? with
          | some e =>
            rw [process_eq_of_exec_err p rt md vs e h hx]
            refine ⟨(fun hs => nomatch hs), fun _ => ⟨rfl, ?_⟩⟩
            cases hAs : errorsAsRuntimeError e with
            | some sm =>
              have hne := hexec md vs e h hx sm.1 sm.2 (by rw [hAs])
              simpa [classifyError, hAs] using hne
            | none =>
              simp only [classifyError, hAs]
              exact append_ne_empty_of_left "execution failed: " (goErrorString e)
                (by decide)
          | none =>
            rw [process_eq_of_exec_ok p rt md vs h hx]
            exact ⟨fun _ => ⟨rfl, ⟨md, vs, rfl, hx, rfl⟩⟩, (fun hs => nomatch hs)⟩

theorem result_field_presence_witness :
    (processWasmFileWithRuntime "/test/v.wasm" rtValTag).result.returnValues = [] ∧
    (processWasmFileWithRuntime "/test/v.wasm" rtValTag).result.errorMessage ≠ "" := by
  apply (result_field_presence "/test/v.wasm" rtValTag ?_ ?_).2 rfl
  · intro m? e h
    simp [rtValTag] at h
    intro s m hAs
    rw [← h.2] at hAs
    simp [errorsAsRuntimeError] at hAs
    obtain ⟨hs1, hm1⟩ := hAs
    subst hm1
    decide
  · intro md vs e h hx
    simp [rtValTag] at h

/-! Invariant lemmas for the batch loop. -/

lemma sumCounts_mapIncr (m : List (FailureStage × Nat)) (k : FailureStage) :
    sumCounts (mapIncr m k) = sumCounts m + 1 := by
  induction m with
  | nil => rfl
  | cons kv rest ih =>
    obtain ⟨k0, v⟩ := kv
    by_cases hk : k0 = k
    · simp [mapIncr, hk, sumCounts]
      omega
    · simp [mapIncr, hk, sumCounts, ih]
      omega

lemma countsLookup_mapIncr_isSome (m : List (FailureStage × Nat)) (k k0 : FailureStage)
    (h : (countsLookup m k0).isSome) : (countsLookup (mapIncr m k) k0).isSome := by
  induction m with
  | nil => simp [countsLookup] at h
  | cons kv rest ih =>
    obtain ⟨k1, v⟩ := kv
    by_cases h1 : k1 = k
    · by_cases h0 : k1 = k0 <;> simp_all [mapIncr, countsLookup]
    · by_cases h0 : k1 = k0 <;> simp_all [mapIncr, countsLookup]

lemma fuzzLoop_results (rt : RuntimeModel) (fs : List String) (r : FuzzingReport) :
    (fuzzLoop rt fs r).results =
      r.results ++ fs.map (fun p => (processWasmFileWithRuntime p rt).result) := by
  induction fs generalizing r with
  | nil => simp [fuzzLoop]
  | cons p rest ih =>
    by_cases hs : (processWasmFileWithRuntime p rt).result.success
    · simp [fuzzLoop, hs, ih]
    · simp [fuzzLoop, hs, ih]

lemma fuzzLoop_totalFiles (rt : RuntimeModel) (fs : List String) (r : FuzzingReport) :
    (fuzzLoop rt fs r).totalFiles = r.totalFiles := by
  induction fs generalizing r with
  | nil => rfl
  | cons p rest ih =>
    by_cases hs : (processWasmFileWithRuntime p rt).result.success
    · simp [fuzzLoop, hs, ih]
    · simp [fuzzLoop, hs, ih]

lemma fuzzLoop_passed_failed (rt : RuntimeModel) (fs : List String) (r : FuzzingReport) :
    (fuzzLoop rt fs r).passed + (fuzzLoop rt fs r).failed =
      r.passed + r.failed + fs.length := by
  induction fs generalizing r with
  | nil => simp [fuzzLoop]
  | cons p rest ih =>
    by_cases hs : (processWasmFileWithRuntime p rt).result.success
    · simp [fuzzLoop, hs, ih]
      omega
    · simp [fuzzLoop, hs, ih]
      omega

lemma fuzzLoop_sumCounts (rt : RuntimeModel) (fs : List String) (r : FuzzingReport) :
    sumCounts (fuzzLoop rt fs r).failureCounts + r.failed =
      sumCounts r.failureCounts + (fuzzLoop rt fs r).failed := by
  induction fs generalizing r with
  | nil => simp [fuzzLoop]
  | cons p rest ih =>
    by_cases hs : (processWasmFileWithRuntime p rt).result.success
    · simpa [fuzzLoop, hs] using ih _
    · have step := ih ({ r with
        results := r.results ++ [(processWasmFileWithRuntime p rt).result],
        failed := r.failed + 1,
        failureCounts :=
          mapIncr r.failureCounts (processWasmFileWithRuntime p rt).result.failureStage })
      simp [fuzzLoop, hs, sumCounts_mapIncr] at step ⊢
      omega

lemma fuzzLoop_hasKey (rt : RuntimeModel) (fs : List String) (r : FuzzingReport)
    (k : FailureStage) (h : (countsLookup r.failureCounts k).isSome) :
    (countsLookup (fuzzLoop rt fs r).failureCounts k).isSome := by
  induction fs generalizing r with
  | nil => simpa [fuzzLoop] using h
  | cons p rest ih =>
    by_cases hs : (processWasmFileWithRuntime p rt).result.success
    · simp only [fuzzLoop, hs, if_pos]
      exact ih _ h
    · simp only [fuzzLoop, hs]
      refine ih _ ?_
      exact countsLookup_mapIncr_isSome _ _ _ h

/-- Claim C4: every report built by `runFuzzerWithRuntime` — for any
directory listing and any runtime behaviour, discovery failure included —
satisfies `passed + failed = totalFiles = length results` and
`sum(failureCounts.values()) = failed`, and the four failure-stage keys
`load`, `validate`, `instantiate`, `execute` are present in
`failureCounts` (zero-initialized, hence with value at least zero) even
when no failure of that stage occurred. -/
theorem runFuzzer_report_invariants (dirPath : String)
    (listing : Except GoError (List DirEntry)) (rt : RuntimeModel) :
    (runFuzzerWithRuntime dirPath listing rt).1.passed +
        (runFuzzerWithRuntime dirPath listing rt).1.failed =
      (runFuzzerWithRuntime dirPath listing rt).1.totalFiles ∧
    (runFuzzerWithRuntime dirPath listing rt).1.totalFiles =
      (runFuzzerWithRuntime dirPath listing rt).1.results.length ∧
    sumCounts (runFuzzerWithRuntime dirPath listing rt).1.failureCounts =
      (runFuzzerWithRuntime dirPath listing rt).1.failed ∧
    (countsLookup (runFuzzerWithRuntime dirPath listing rt).1.failureCounts
      StageLoad).isSome ∧
    (countsLookup (runFuzzerWithRuntime dirPath listing rt).1.failureCounts
      StageValidate).isSome ∧
    (countsLookup (runFuzzerWithRuntime dirPath listing rt).1.failureCounts
      StageInstantiate).isSome ∧
    (countsLookup (runFuzzerWithRuntime dirPath listing rt).1.failureCounts
      StageExecute).isSome := by
  cases listing with
  | error e =>
    have hrun : (runFuzzerWithRuntime dirPath (.error e) rt).1 = initialReport := rfl
    rw [hrun]
    refine ⟨rfl, rfl, rfl, ?_, ?_, ?_, ?_⟩ <;> decide
  | ok entries =>
    have hfst : (runFuzzerWithRuntime dirPath (.ok entries) rt).1 =
        fuzzLoop rt (collectLoop dirPath entries)
          { initialReport with totalFiles := (collectLoop dirPath entries).length } := rfl
    rw [hfst]
    have h1 := fuzzLoop_passed_failed rt (collectLoop dirPath entries)
      { initialReport with totalFiles := (collectLoop dirPath entries).length }
    have h2 := fuzzLoop_totalFiles rt (collectLoop dirPath entries)
      { initialReport with totalFiles := (collectLoop dirPath entries).length }
    have h3 := fuzzLoop_results rt (collectLoop dirPath entries)
      { initialReport with totalFiles := (collectLoop dirPath entries).length }
    have h4 := fuzzLoop_sumCounts rt (collectLoop dirPath entries)
      { initialReport with totalFiles := (collectLoop dirPath entries).length }
    refine ⟨?_, ?_, ?_, ?_, ?_, ?_, ?_⟩
    · rw [h1, h2]
      simp [initialReport]
    · rw [h2, h3]
      simp [initialReport]
    · have hs0 : sumCounts initialReport.failureCounts = 0 := rfl
      simp only [initialReport] at h4 hs0 ⊢
      omega
    · exact fuzzLoop_hasKey rt (collectLoop dirPath entries) _ StageLoad rfl
    · exact fuzzLoop_hasKey rt (collectLoop dirPath entries) _ StageValidate rfl
    · exact fuzzLoop_hasKey rt (collectLoop dirPath entries) _ StageInstantiate rfl
    · exact fuzzLoop_hasKey rt (collectLoop dirPath entries) _ StageExecute rfl

/-- Claim C6: `runFuzzerWithRuntime` returns an error iff directory
discovery fails; in that case the returned report is exactly the pristine
initialized report (no partial results).  On successful discovery no
error is returned and every discovered file yields exactly one result, in
order — no module's failure or contained panic aborts, skips or
short-circuits the batch. -/
theorem runFuzzer_error_iff_discovery (dirPath : String)
    (listing : Except GoError (List DirEntry)) (rt : RuntimeModel) :
    (∀ e, listing = .error e →
      runFuzzerWithRuntime dirPath listing rt =
        (initialReport, some (.wrapped "failed to read directory: " e))) ∧
    (∀ entries, listing = .ok entries →
      (runFuzzerWithRuntime dirPath listing rt).2 = none ∧
      (runFuzzerWithRuntime dirPath listing rt).1.results =
        (collectLoop dirPath entries).map
          (fun p => (processWasmFileWithRuntime p rt).result)) := by
  constructor
  · intro e he
    rw [he]
    rfl
  · intro entries he
    rw [he]
    refine ⟨rfl, ?_⟩
    have : (runFuzzerWithRuntime dirPath (.ok entries) rt).1 =
        fuzzLoop rt (collectLoop dirPath entries)
          { initialReport with totalFiles := (collectLoop dirPath entries).length } := rfl
    rw [this, fuzzLoop_results]
    simp [initialReport]

theorem runFuzzer_error_iff_discovery_witness :
    runFuzzerWithRuntime "corpus" (.error (.plain "permission denied")) rtOk =
      (initialReport,
       some (.wrapped "failed to read directory: " (.plain "permission denied"))) ∧
    (runFuzzerWithRuntime "corpus"
        (.ok [⟨"a.wasm", false⟩, ⟨"sub", true⟩, ⟨"b.wasm", false⟩]) rtOk).2 = none :=
  ⟨(runFuzzer_error_iff_discovery "corpus" (.error (.plain "permission denied")) rtOk).1
      (.plain "permission denied") rfl,
   ((runFuzzer_error_iff_discovery "corpus"
        (.ok [⟨"a.wasm", false⟩, ⟨"sub", true⟩, ⟨"b.wasm", false⟩]) rtOk).2
      [⟨"a.wasm", false⟩, ⟨"sub", true⟩, ⟨"b.wasm", false⟩] rfl).1⟩

lemma collectLoop_eq_filter_map (dirPath : String) (entries : List DirEntry) :
    collectLoop dirPath entries =
      (entries.filter (fun e => !e.isDir && (goExt e.name == ".wasm"))).map
        (fun e => goJoin dirPath e.name) := by
  induction entries with
  | nil => rfl
  | cons e rest ih =>
    by_cases hd : e.isDir
    · simp [collectLoop, hd, List.filter, ih]
    · by_cases hw : goExt e.name = ".wasm"
      · have hw2 : (goExt e.name == ".wasm") = true := by simp [hw]
        simp [collectLoop, hd, hw, hw2, List.filter, ih]
      · have hw2 : (goExt e.name == ".wasm") = false := by simp [hw]
        simp [collectLoop, hd, hw, hw2, List.filter, ih]

/-- Claim C7: the candidate list passed to processing is exactly the
non-directory listing entries whose name has extension `.wasm`, joined to
the directory path, in the order the listing collaborator returned them;
and `results[i]` is the processing result of the i-th candidate in that
discovery order. -/
theorem discovery_filter_and_order (dirPath : String) (entries : List DirEntry)
    (rt : RuntimeModel) (listing : Except GoError (List DirEntry))
    (h : listing = .ok entries) :
    collectWasmFiles dirPath listing =
      .ok ((entries.filter (fun e => !e.isDir && (goExt e.name == ".wasm"))).map
        (fun e => goJoin dirPath e.name)) ∧
    ∀ i : Nat,
      (runFuzzerWithRuntime dirPath listing rt).1.results[i]? =
        (((entries.filter (fun e => !e.isDir && (goExt e.name == ".wasm"))).map
          (fun e => goJoin dirPath e.name))[i]?).map
          (fun p => (processWasmFileWithRuntime p rt).result) := by
  subst h
  constructor
  · rw [collectWasmFiles, collectLoop_eq_filter_map]
  · intro i
    have hfst : (runFuzzerWithRuntime dirPath (.ok entries) rt).1 =
        fuzzLoop rt (collectLoop dirPath entries)
          { initialReport with totalFiles := (collectLoop dirPath entries).length } := rfl
    rw [hfst, fuzzLoop_results, collectLoop_eq_filter_map]
    simp [initialReport, List.getElem?_map]

theorem discovery_filter_and_order_witness :
    collectWasmFiles "corpus"
        (.ok [⟨"a.wasm", false⟩, ⟨"sub.wasm", true⟩, ⟨"notes.txt", false⟩,
              ⟨"b.wasm", false⟩]) =
      .ok ["corpus/a.wasm", "corpus/b.wasm"] :=
  ((discovery_filter_and_order "corpus"
      [⟨"a.wasm", false⟩, ⟨"sub.wasm", true⟩, ⟨"notes.txt", false⟩, ⟨"b.wasm", false⟩]
      rtOk
      (.ok [⟨"a.wasm", false⟩, ⟨"sub.wasm", true⟩, ⟨"notes.txt", false⟩,
            ⟨"b.wasm", false⟩])
      rfl).1).trans (by rfl)
